import Mathlib

/-!
Shallow embedding of the two command-line utilities of this repository:

* `send-mail.py` — composes a MIME multipart email from CLI arguments and
  stdin and transmits it over an authenticated SMTP-over-SSL session.
* `query-ai.py` — forwards a prompt read from stdin to a chat-completion
  API and prints the stripped response text.

Python strings become `String`, byte strings become `List Nat` (each
element `< 256`), the process environment becomes `String → Option String`,
the file system becomes `String → Option (List Nat)`, and the SMTP session
is modelled as a trace of events together with a process outcome, with an
oracle supplying the success/failure of the library calls.
-/

set_option linter.unusedVariables false

namespace SendMail

/-- Bytes are naturals `< 256`. -/
def ValidBytes (bs : List Nat) : Prop := ∀ x ∈ bs, x < 256

instance : DecidablePred ValidBytes := fun bs =>
  inferInstanceAs (Decidable (∀ x ∈ bs, x < 256))

/-- Models the library call `encoders.encode_base64` at the level of 6-bit
sextet values: each group of 3 input bytes yields 4 sextets, a trailing
group of 2 bytes yields 3 sextets and a trailing single byte yields 2
sextets (the subsequent mapping of sextets to the base64 alphabet plus
`=` padding is the bijective rendering `b64Render` below). -/
def b64Encode : List Nat → List Nat
  | a :: b :: c :: rest =>
      (a / 4) :: ((a % 4) * 16 + b / 16) :: ((b % 16) * 4 + c / 64) :: (c % 64) :: b64Encode rest
  | [a, b] => [a / 4, (a % 4) * 16 + b / 16, (b % 16) * 4]
  | [a] => [a / 4, (a % 4) * 16]
  | [] => []

/-- Base64 decoding at the sextet level: each group of 4 sextets yields 3
bytes, a trailing group of 3 sextets yields 2 bytes and a trailing group
of 2 sextets yields 1 byte. -/
def b64Decode : List Nat → List Nat
  | s1 :: s2 :: s3 :: s4 :: rest =>
      (s1 * 4 + s2 / 16) :: ((s2 % 16) * 16 + s3 / 4) :: ((s3 % 4) * 64 + s4) :: b64Decode rest
  | [s1, s2, s3] => [s1 * 4 + s2 / 16, (s2 % 16) * 16 + s3 / 4]
  | [s1, s2] => [s1 * 4 + s2 / 16]
  | _ => []

/-- The standard base64 alphabet. -/
def b64Alphabet : List Char :=
  "ABCDEFGHIJKLMNOPQRSTUVWXYZabcdefghijklmnopqrstuvwxyz0123456789+/".toList

/-- Renders a sextet list as base64 text with `=` padding to a multiple of
four characters. -/
def b64Render (sextets : List Nat) : String :=
  String.mk (sextets.map (fun n => b64Alphabet.getD n '=')) ++
    String.mk (List.replicate ((4 - sextets.length % 4) % 4) '=')

/-- Models the library expression `str(Header(s, 'utf-8'))` for a
single-line value: an all-ASCII string renders unchanged; a string with
non-ASCII characters renders as one RFC 2047 base64 encoded word (the
library's line folding and shortest-encoding selection are omitted; all
claim-relevant inputs are ASCII and take the identity branch). -/
def headerEncode (s : String) : String :=
  if s.toList.all (fun c => c.toNat < 128) then s
  else "=?utf-8?b?" ++ b64Render (b64Encode (s.toUTF8.toList.map (fun b => b.toNat))) ++ "?="

/-- Models `str(Header(args.to_name, 'utf-8'))` where `to_name` defaults
to `None`: `Header(None)` renders as the empty string. -/
def headerEncodeOpt : Option String → String
  | none => ""
  | some s => headerEncode s

/-- The characters of `email.utils.specialsre`, `r'[][\\()<>@,:;".]'`. -/
def specialsChars : List Char :=
  [']', '[', '\\', '(', ')', '<', '>', '@', ',', ':', ';', '"', '.']

/-- Models the `email.utils.escapesre` substitution: prefix every
backslash or double quote with a backslash. -/
def escapeName (s : String) : String :=
  String.join (s.toList.map (fun c =>
    if c = '\\' ∨ c = '"' then "\\" ++ c.toString else c.toString))

/-- Models `email.utils.formataddr((name, address))`: an empty name yields
the bare address; otherwise the name is escaped, quoted when it contains a
special character, and combined as `name <address>`. (The non-ASCII
fallback branch of the library is unreachable at this program's call
sites because the name argument is always the ASCII output of
`str(Header(...))`.) -/
def formataddr (name address : String) : String :=
  if name = "" then address
  else
    let quotes := if name.toList.any (fun c => c ∈ specialsChars) then "\"" else ""
    quotes ++ escapeName name ++ quotes ++ " <" ++ address ++ ">"

/-- The parsed CLI arguments of `send-mail.py` (`parse_arguments`):
`--from-email --from-name --to-email --subject` are required,
`--to-name` defaults to `None`, `--attachment --cc-email --cc-name` are
repeatable with default `[]`, `--content-type` defaults to `"plain"`. -/
structure Args where
  from_email : String
  from_name : String
  to_email : String
  subject : String
  attachment : List String
  content_type : String
  to_name : Option String
  cc_email : List String
  cc_name : List String
deriving DecidableEq

/-- Result of `parse_arguments`: either the parsed arguments or
`parser.error` (a usage error that exits the process before anything else
runs). -/
inductive ParseResult where
  | ok (args : Args)
  | usageError (msg : String)
deriving DecidableEq

/-- The validation at the end of `parse_arguments` (send-mail.py lines
111-113): `if len(args.cc_name) > 0 and len(args.cc_email) !=
len(args.cc_name): parser.error(...)`. -/
def parse_arguments (args : Args) : ParseResult :=
  if args.cc_name.length > 0 ∧ args.cc_email.length ≠ args.cc_name.length then
    ParseResult.usageError "The number of --cc-email and --cc-name entries must match."
  else ParseResult.ok args

/-- The position-wise (display-name, address) pairs handed to `formataddr`
for the Cc header (send-mail.py lines 54-57): the source iterates
`for name, email in zip(args.cc_email, args.cc_name)` and calls
`formataddr((str(Header(name, 'utf-8')), email))`, so the first component
of each pair is drawn from `cc_email` and the second from `cc_name`. -/
def ccFormatPairs (args : Args) : List (String × String) :=
  (args.cc_email.zip args.cc_name).map (fun p => (headerEncode p.1, p.2))

/-- The value assigned to `msg['Cc']`: the comma join of the formatted
pairs. -/
def ccHeaderValue (args : Args) : String :=
  String.intercalate "," ((ccFormatPairs args).map (fun p => formataddr p.1 p.2))

/-- One part of the MIME multipart message: either the body
(`MIMEText(content, args.content_type, 'utf-8')`) or an attachment
(`MIMEBase('application', 'octet-stream')` with a base64 payload and a
`Content-Disposition` header). -/
inductive Part where
  | text (content : String) (subtype : String) (charset : String)
  | binary (payload : List Nat) (contentDisposition : String)
deriving DecidableEq

/-- The constructed `MIMEMultipart` message: its headers and its parts in
attachment order after the body part. -/
structure Message where
  subject : String
  fromHeader : String
  toHeader : String
  ccHeader : String
  parts : List Part
deriving DecidableEq

/-- Reading and attaching one `--attachment` path (send-mail.py lines
63-79): open the file in binary mode (`none` models an uncaught
file-access failure), base64-encode the payload, and add a
`Content-Disposition` header whose value embeds the path verbatim via
`f'attachment; filename={attachment_name}'`. -/
def buildAttachmentPart (fs : String → Option (List Nat)) (attachment_name : String) :
    Option Part :=
  match fs attachment_name with
  | none => none
  | some bytes => some (Part.binary (b64Encode bytes) ("attachment; filename=" ++ attachment_name))

/-- Message construction (send-mail.py lines 50-79): headers from the
arguments, the body part, then one binary part per attachment; `none`
models the uncaught exception raised when opening an attachment fails. -/
def buildMessage (args : Args) (content : String) (fs : String → Option (List Nat)) :
    Option Message :=
  match args.attachment.mapM (buildAttachmentPart fs) with
  | none => none
  | some atts => some
      ⟨args.subject,
       formataddr (headerEncode args.from_name) args.from_email,
       formataddr (headerEncodeOpt args.to_name) args.to_email,
       ccHeaderValue args,
       Part.text content args.content_type "utf-8" :: atts⟩

/-- The SMTP envelope recipient list (send-mail.py lines 45-48):
`destination = [args.from_email, args.to_email]`. -/
def destination (args : Args) : List String :=
  [args.from_email, args.to_email]

/-- Observable events of the send: opening the SSL SMTP connection,
authenticating, the `sendmail` transmission call, and `quit`. -/
inductive Event where
  | connect (server : String)
  | login (username password : String)
  | sendmail (fromAddr : String) (dest : List String) (msg : Message)
  | quit
deriving DecidableEq

/-- How the process ends: normal return, `sys.exit(msg)` (non-zero with a
diagnostic), an uncaught exception (non-zero with a traceback), or a
`parser.error` usage exit. -/
inductive Outcome where
  | ok
  | exitMsg (msg : String)
  | uncaught (msg : String)
  | usageError (msg : String)
deriving DecidableEq

/-- Oracle for the SMTP library calls: whether `login` raises and whether
`sendmail` raises (with the text of the `sendmail` exception). The model
assumes the connection itself opens; every claim concerns behaviour at or
after that point. -/
structure SmtpOracle where
  loginFails : Bool
  sendFails : Bool
  sendErrMsg : String

/-- Number of `quit` events in a trace. -/
def quitCount : List Event → Nat
  | [] => 0
  | Event.quit :: rest => quitCount rest + 1
  | _ :: rest => quitCount rest

/-- Credential resolution (send-mail.py lines 39-44): the three
environment lookups inside one `try`; the first `KeyError` exits via
`sys.exit(f"Unable to find {e.args[0]} environment variable\n")`. -/
def resolveCreds (env : String → Option String) :
    Except String (String × String × String) :=
  match env "SMTP_SERVER" with
  | none => Except.error "Unable to find SMTP_SERVER environment variable\n"
  | some smtp_server =>
    match env "SMTP_USERNAME" with
    | none => Except.error "Unable to find SMTP_USERNAME environment variable\n"
    | some username =>
      match env "SMTP_PASSWORD" with
      | none => Except.error "Unable to find SMTP_PASSWORD environment variable\n"
      | some password => Except.ok (smtp_server, username, password)

/-- Models `send_mail(args, content)` (send-mail.py lines 38-90) as a trace of
events plus an outcome. Credentials are resolved first (failure exits with
no events); the message is built (an attachment-open failure raises with
no events); then `conn = SMTP(server)`, `conn.login(u, p)` — a login
failure propagates uncaught and, because `login` sits outside the
`try/finally`, no `quit` runs; then `conn.sendmail(...)` inside
`try/except/finally`: on failure `sys.exit(f"mail to f{args.to_email}
failed; {exc}")` runs after the `finally` clause invokes `conn.quit()`,
and on success `conn.quit()` also runs. -/
def send_mail (env : String → Option String) (args : Args) (content : String)
    (fs : String → Option (List Nat)) (orc : SmtpOracle) : List Event × Outcome :=
  match resolveCreds env with
  | Except.error msg => ([], Outcome.exitMsg msg)
  | Except.ok creds =>
    match buildMessage args content fs with
    | none => ([], Outcome.uncaught "attachment open failed")
    | some msg =>
      if orc.loginFails then
        ([Event.connect creds.1, Event.login creds.2.1 creds.2.2],
         Outcome.uncaught "login failed")
      else if orc.sendFails then
        ([Event.connect creds.1, Event.login creds.2.1 creds.2.2,
          Event.sendmail args.from_email (destination args) msg, Event.quit],
         Outcome.exitMsg ("mail to f" ++ args.to_email ++ " failed; " ++ orc.sendErrMsg))
      else
        ([Event.connect creds.1, Event.login creds.2.1 creds.2.2,
          Event.sendmail args.from_email (destination args) msg, Event.quit],
         Outcome.ok)

/-- Models `main()` (send-mail.py lines 117-120): parse arguments (a usage error
exits before anything else, with no events), read stdin, send. -/
def mainRun (cli : Args) (env : String → Option String) (content : String)
    (fs : String → Option (List Nat)) (orc : SmtpOracle) : List Event × Outcome :=
  match parse_arguments cli with
  | ParseResult.usageError m => ([], Outcome.usageError m)
  | ParseResult.ok args => send_mail env args content fs orc

end SendMail

namespace QueryAi

/-- The ASCII whitespace characters stripped by Python `str.strip()`. -/
def pyWhitespace (c : Char) : Bool :=
  c = ' ' ∨ c = '\t' ∨ c = '\n' ∨ c = '\r' ∨ c = '\x0b' ∨ c = '\x0c'

/-- Models Python `str.strip()`: remove leading and trailing whitespace
(the model covers the ASCII whitespace characters). -/
def pyStrip (s : String) : String :=
  String.mk (((s.toList.dropWhile pyWhitespace).reverse.dropWhile pyWhitespace).reverse)

/-- One element of the `messages` list of the chat-completion request. -/
structure ChatMessage where
  role : String
  content : String
deriving DecidableEq

/-- The chat-completion request issued by
`client.chat.completions.create(messages=..., model=...)`
(query-ai.py lines 37-45): only `messages` and `model` are supplied. -/
structure ChatRequest where
  messages : List ChatMessage
  model : String
deriving DecidableEq

/-- The parsed CLI arguments of query-ai.py: `--model` (default
`"gpt-4o"`) and `--max_tokens` (an integer, default `150`). -/
structure QueryArgs where
  model : String
  max_tokens : Int
deriving DecidableEq

/-- The request built by `query_openai(prompt, model, max_tokens)`
(query-ai.py lines 36-45): a single user-role message carrying the prompt,
and the model identifier; the `max_tokens` parameter appears in no field
of the call. -/
def query_openai_request (prompt : String) (model : String) (max_tokens : Int) : ChatRequest :=
  ⟨[⟨"user", prompt⟩], model⟩

/-- Models `query_openai` (query-ai.py lines 26-46): issue the request and return
`chat_completion.choices[0].message.content.strip()`. The provider is
modelled as a function `respond` from the request to the first
completion's message content; the returned pair is (request issued, value
returned). -/
def query_openai (prompt : String) (model : String) (max_tokens : Int)
    (respond : ChatRequest → String) : ChatRequest × String :=
  let req := query_openai_request prompt model max_tokens
  (req, pyStrip (respond req))

/-- The `__main__` block (query-ai.py lines 67-70): strip stdin, call
`query_openai` once with the parsed arguments, print the response. The
result is the list of requests issued together with the printed text. -/
def queryMain (stdin : String) (args : QueryArgs) (respond : ChatRequest → String) :
    List ChatRequest × String :=
  let user_prompt := pyStrip stdin
  let r := query_openai user_prompt args.model args.max_tokens respond
  ([r.1], r.2)

end QueryAi

namespace SendMail

/-- A minimal valid invocation used to evaluate the model on concrete
inputs: required flags only, no attachments, no CC entries. -/
def argsBase : Args :=
  ⟨"from@example.com", "From", "to@example.com", "Subject", [], "plain", none, [], []⟩

/-- An environment carrying all three SMTP credential variables. -/
def envFull : String → Option String := fun v =>
  if v = "SMTP_SERVER" then some "smtp.example.com"
  else if v = "SMTP_USERNAME" then some "user"
  else if v = "SMTP_PASSWORD" then some "pass"
  else none

/-- A file system with no readable files (irrelevant when no attachment is
given). -/
def fsNone : String → Option (List Nat) := fun _ => none

/-- The message `send-mail.py` constructs for `argsBase` with body
`"body"`. -/
def msgBase : Message :=
  ⟨"Subject", "From <from@example.com>", "to@example.com", "",
   [Part.text "body" "plain" "utf-8"]⟩

/-- An invocation with a single `--attachment file.bin`. -/
def argsAtt : Args :=
  ⟨"from@example.com", "From", "to@example.com", "Subject", ["file.bin"], "plain", none, [], []⟩

/-- A file system in which `file.bin` holds the bytes `[0, 255, 7]`. -/
def fsOne : String → Option (List Nat) := fun q =>
  if q = "file.bin" then some [0, 255, 7] else none

/-- The message `send-mail.py` constructs for `argsAtt` with body
`"body"` under `fsOne`. -/
def msgAtt : Message :=
  ⟨"Subject", "From <from@example.com>", "to@example.com", "",
   [Part.text "body" "plain" "utf-8",
    Part.binary [0, 15, 60, 7] "attachment; filename=file.bin"]⟩

/-- Decoding inverts encoding on byte lists. -/
theorem b64_decode_encode : ∀ bs : List Nat, ValidBytes bs → b64Decode (b64Encode bs) = bs
  | [], _ => rfl
  | [a], h => by
      have ha : a < 256 := h a (by simp)
      simp only [b64Encode, b64Decode, List.cons.injEq, and_true]
      omega
  | [a, b], h => by
      have ha : a < 256 := h a (by simp)
      have hb : b < 256 := h b (by simp)
      simp only [b64Encode, b64Decode, List.cons.injEq, and_true]
      omega
  | a :: b :: c :: rest, h => by
      have ha : a < 256 := h a (by simp)
      have hb : b < 256 := h b (by simp)
      have hc : c < 256 := h c (by simp)
      have ih := b64_decode_encode rest (fun x hx => h x (by simp [hx]))
      simp only [b64Encode, b64Decode, ih, List.cons.injEq, and_true]
      refine ⟨by omega, by omega, by omega⟩

end SendMail

namespace QueryAi

/-- C4: the value of the `--max_tokens` argument is accepted and parsed
(it is a field of `QueryArgs`) but is not included in the completion
request: two invocations differing only in `max_tokens` issue the same
request and produce the same output. -/
theorem max_tokens_not_forwarded (stdin model : String) (mt1 mt2 : Int)
    (respond : ChatRequest → String) :
    queryMain stdin ⟨model, mt1⟩ respond = queryMain stdin ⟨model, mt2⟩ respond := rfl

/-- C8: for every stdin whose stripped text (the prompt) is non-empty, the
tool issues exactly one request, that request's message list is the single
user-role message carrying exactly the prompt text, the request's model
field equals the `--model` argument, and the returned text is the first
completion's content with surrounding whitespace stripped. -/
theorem single_user_request_and_stripped_response (stdin : String) (args : QueryArgs)
    (respond : ChatRequest → String) (h : pyStrip stdin ≠ "") :
    queryMain stdin args respond =
      ([query_openai_request (pyStrip stdin) args.model args.max_tokens],
       pyStrip (respond (query_openai_request (pyStrip stdin) args.model args.max_tokens))) ∧
    query_openai_request (pyStrip stdin) args.model args.max_tokens =
      ⟨[⟨"user", pyStrip stdin⟩], args.model⟩ :=
  ⟨rfl, rfl⟩

/-- Witness for C8 at a concrete invocation. -/
theorem single_user_request_and_stripped_response_witness :
    pyStrip " hi " ≠ "" ∧
    (queryMain " hi " ⟨"gpt-4o", 150⟩ (fun _ => " ok") =
      ([query_openai_request (pyStrip " hi ") "gpt-4o" 150],
       pyStrip ((fun _ => " ok") (query_openai_request (pyStrip " hi ") "gpt-4o" 150))) ∧
     query_openai_request (pyStrip " hi ") "gpt-4o" 150 =
      ⟨[⟨"user", pyStrip " hi "⟩], "gpt-4o"⟩) :=
  ⟨by decide,
   single_user_request_and_stripped_response " hi " ⟨"gpt-4o", 150⟩ (fun _ => " ok")
     (by decide)⟩

end QueryAi

namespace SendMail

/-- C6: when at least one `--cc-name` is given and the `--cc-name` count
differs from the `--cc-email` count, the run ends in a usage error during
argument parsing with an empty event trace (no network activity). -/
theorem cc_count_mismatch_usage_error (cli : Args) (env : String → Option String)
    (content : String) (fs : String → Option (List Nat)) (orc : SmtpOracle)
    (h1 : cli.cc_name.length > 0) (h2 : cli.cc_email.length ≠ cli.cc_name.length) :
    mainRun cli env content fs orc =
      ([], Outcome.usageError "The number of --cc-email and --cc-name entries must match.") := by
  simp only [mainRun, parse_arguments, if_pos (And.intro h1 h2)]

/-- Witness for C6: two CC emails, one CC name. -/
theorem cc_count_mismatch_usage_error_witness :
    (⟨"from@example.com", "From", "to@example.com", "Subject", [], "plain", none,
      ["a@x", "b@x"], ["A"]⟩ : Args).cc_name.length > 0 ∧
    (⟨"from@example.com", "From", "to@example.com", "Subject", [], "plain", none,
      ["a@x", "b@x"], ["A"]⟩ : Args).cc_email.length ≠ 1 ∧
    mainRun ⟨"from@example.com", "From", "to@example.com", "Subject", [], "plain", none,
        ["a@x", "b@x"], ["A"]⟩ envFull "body" fsNone ⟨false, false, ""⟩ =
      ([], Outcome.usageError "The number of --cc-email and --cc-name entries must match.") :=
  ⟨by decide, by decide,
   cc_count_mismatch_usage_error _ envFull "body" fsNone ⟨false, false, ""⟩
     (by decide) (by decide)⟩

/-- C10: with at least one `--cc-email` and no `--cc-name`, argument
validation passes unchanged, yet every constructed message carries an
empty Cc header: `zip` truncates to the empty name list, dropping every
supplied CC address. -/
theorem cc_without_names_dropped (cli : Args) (content : String)
    (fs : String → Option (List Nat)) (m : Message)
    (h1 : cli.cc_name = []) (h2 : cli.cc_email ≠ [])
    (hm : buildMessage cli content fs = some m) :
    parse_arguments cli = ParseResult.ok cli ∧ ccHeaderValue cli = "" ∧ m.ccHeader = "" := by
  have hcc : ccHeaderValue cli = "" := by
    simp [ccHeaderValue, ccFormatPairs, h1, String.intercalate]
  refine ⟨?_, hcc, ?_⟩
  · simp [parse_arguments, h1]
  · simp only [buildMessage] at hm
    split at hm
    · exact absurd hm (by simp)
    · rw [Option.some_inj] at hm
      rw [← hm]
      exact hcc

/-- Witness for C10: one CC email, no CC names; the built message's Cc
header is empty. -/
theorem cc_without_names_dropped_witness :
    (⟨"from@example.com", "From", "to@example.com", "Subject", [], "plain", none,
      ["a@x"], []⟩ : Args).cc_name = [] ∧
    (⟨"from@example.com", "From", "to@example.com", "Subject", [], "plain", none,
      ["a@x"], []⟩ : Args).cc_email ≠ [] ∧
    (parse_arguments ⟨"from@example.com", "From", "to@example.com", "Subject", [], "plain",
        none, ["a@x"], []⟩ =
      ParseResult.ok ⟨"from@example.com", "From", "to@example.com", "Subject", [], "plain",
        none, ["a@x"], []⟩ ∧
     ccHeaderValue ⟨"from@example.com", "From", "to@example.com", "Subject", [], "plain",
        none, ["a@x"], []⟩ = "" ∧
     msgBase.ccHeader = "") :=
  ⟨by decide, by decide,
   cc_without_names_dropped _ "body" fsNone msgBase (by decide) (by decide) (by decide)⟩

/-- C5: when any of the three SMTP environment variables is unset, the
run exits with a fatal diagnostic naming a variable that is indeed unset,
and the event trace is empty — no network connection is opened. -/
theorem missing_env_exits_before_network (env : String → Option String) (args : Args)
    (content : String) (fs : String → Option (List Nat)) (orc : SmtpOracle)
    (h : env "SMTP_SERVER" = none ∨ env "SMTP_USERNAME" = none ∨ env "SMTP_PASSWORD" = none) :
    ∃ v, env v = none ∧
      send_mail env args content fs orc =
        ([], Outcome.exitMsg ("Unable to find " ++ v ++ " environment variable\n")) := by
  cases hs : env "SMTP_SERVER" with
  | none =>
    exact ⟨"SMTP_SERVER", hs, by simp [send_mail, resolveCreds, hs]⟩
  | some srv =>
    cases hu : env "SMTP_USERNAME" with
    | none =>
      exact ⟨"SMTP_USERNAME", hu, by simp [send_mail, resolveCreds, hs, hu]⟩
    | some usr =>
      cases hp : env "SMTP_PASSWORD" with
      | none =>
        exact ⟨"SMTP_PASSWORD", hp, by simp [send_mail, resolveCreds, hs, hu, hp]⟩
      | some pwd =>
        rcases h with h | h | h
        · exact absurd hs (by simp [h])
        · exact absurd hu (by simp [h])
        · exact absurd hp (by simp [h])

/-- Witness for C5: an empty environment. -/
theorem missing_env_exits_before_network_witness :
    ((fun _ => none : String → Option String) "SMTP_SERVER" = none ∨
     (fun _ => none : String → Option String) "SMTP_USERNAME" = none ∨
     (fun _ => none : String → Option String) "SMTP_PASSWORD" = none) ∧
    ∃ v, (fun _ => none : String → Option String) v = none ∧
      send_mail (fun _ => none) argsBase "body" fsNone ⟨false, false, ""⟩ =
        ([], Outcome.exitMsg ("Unable to find " ++ v ++ " environment variable\n")) :=
  ⟨Or.inl rfl,
   missing_env_exits_before_network (fun _ => none) argsBase "body" fsNone
     ⟨false, false, ""⟩ (Or.inl rfl)⟩

/-- C1 (refuted): with equal-length CC lists the pairing hands the i-th
CC *email* to the display-name slot of `formataddr` and the i-th CC *name*
to the address slot — the source destructures
`zip(args.cc_email, args.cc_name)` as `name, email` — so for
`--cc-email a@x --cc-name Alice` the Cc header is `"a@x" <Alice>`, not
`Alice <a@x>` as the claim states. -/
theorem cc_pair_swapped :
    ccFormatPairs ⟨"from@example.com", "From", "to@example.com", "Subject", [], "plain",
        none, ["a@x"], ["Alice"]⟩ = [("a@x", "Alice")] ∧
    ccHeaderValue ⟨"from@example.com", "From", "to@example.com", "Subject", [], "plain",
        none, ["a@x"], ["Alice"]⟩ = "\"a@x\" <Alice>" ∧
    ccHeaderValue ⟨"from@example.com", "From", "to@example.com", "Subject", [], "plain",
        none, ["a@x"], ["Alice"]⟩ ≠ "Alice <a@x>" :=
  ⟨rfl, by decide, by decide⟩

/-- C2: whenever the run reaches the transmission call, the envelope
recipient list handed to `sendmail` is exactly
`[args.from_email, args.to_email]`, whatever the CC arguments were. -/
theorem envelope_is_from_to (env : String → Option String) (args : Args) (content : String)
    (fs : String → Option (List Nat)) (orc : SmtpOracle) (f : String) (d : List String)
    (m : Message) (h : Event.sendmail f d m ∈ (send_mail env args content fs orc).1) :
    d = [args.from_email, args.to_email] := by
  simp only [send_mail] at h
  split at h
  · simp at h
  · split at h
    · simp at h
    · split at h
      · simp at h
      · split at h <;>
        · simp only [destination, List.mem_cons, List.not_mem_nil, or_false] at h
          rcases h with h | h | h | h <;> simp_all

/-- Witness for C2: a concrete successful run reaching `sendmail`. -/
theorem envelope_is_from_to_witness :
    Event.sendmail "from@example.com" ["from@example.com", "to@example.com"] msgBase ∈
      (send_mail envFull argsBase "body" fsNone ⟨false, false, ""⟩).1 ∧
    ["from@example.com", "to@example.com"] = [argsBase.from_email, argsBase.to_email] :=
  ⟨by decide,
   envelope_is_from_to envFull argsBase "body" fsNone ⟨false, false, ""⟩
     "from@example.com" ["from@example.com", "to@example.com"] msgBase (by decide)⟩

/-- C7: whenever the run reaches the transmission call, `quit` appears
exactly once in the trace, whether `sendmail` raises or not. -/
theorem quit_exactly_once_when_sendmail_reached (env : String → Option String) (args : Args)
    (content : String) (fs : String → Option (List Nat)) (orc : SmtpOracle) (f : String)
    (d : List String) (m : Message)
    (h : Event.sendmail f d m ∈ (send_mail env args content fs orc).1) :
    quitCount (send_mail env args content fs orc).1 = 1 := by
  simp only [send_mail] at h ⊢
  cases hcr : resolveCreds env with
  | error e => simp [hcr] at h
  | ok creds =>
    simp only [hcr] at h ⊢
    cases hbm : buildMessage args content fs with
    | none => simp [hbm] at h
    | some msg =>
      simp only [hbm] at h ⊢
      by_cases hl : orc.loginFails
      · simp [hl] at h
      · by_cases hsf : orc.sendFails <;> simp [hl, hsf, quitCount]

/-- Witness for C7: the failing-transmission run still has exactly one
`quit`. -/
theorem quit_exactly_once_when_sendmail_reached_witness :
    Event.sendmail "from@example.com" ["from@example.com", "to@example.com"] msgBase ∈
      (send_mail envFull argsBase "body" fsNone ⟨false, true, "boom"⟩).1 ∧
    quitCount (send_mail envFull argsBase "body" fsNone ⟨false, true, "boom"⟩).1 = 1 :=
  ⟨by decide,
   quit_exactly_once_when_sendmail_reached envFull argsBase "body" fsNone
     ⟨false, true, "boom"⟩ "from@example.com" ["from@example.com", "to@example.com"] msgBase
     (by decide)⟩

/-- C3 (refuted): a concrete run whose SMTP session fails at `login`,
after the connection is opened, terminates with an uncaught exception and
`quit` is never invoked — `conn.login` sits outside the `try/finally`, so
the guaranteed cleanup does not cover it. -/
theorem login_failure_skips_quit :
    (send_mail envFull argsBase "body" fsNone ⟨true, false, ""⟩).1 =
      [Event.connect "smtp.example.com", Event.login "user" "pass"] ∧
    (send_mail envFull argsBase "body" fsNone ⟨true, false, ""⟩).2 =
      Outcome.uncaught "login failed" ∧
    quitCount (send_mail envFull argsBase "body" fsNone ⟨true, false, ""⟩).1 = 0 :=
  ⟨by decide, by decide, by decide⟩

/-- C3 (amended): when the SMTP session fails during the `sendmail`
transmission — after connect and login succeed — the process terminates
fatally via `sys.exit` and `quit` is still invoked exactly once by the
`finally` cleanup; a login failure, by contrast, terminates the process
fatally without `quit` being invoked (shown by
`login_failure_skips_quit`). -/
theorem sendmail_failure_exits_and_quits (env : String → Option String) (args : Args)
    (content : String) (fs : String → Option (List Nat)) (orc : SmtpOracle)
    (creds : String × String × String) (m : Message)
    (hc : resolveCreds env = Except.ok creds) (hm : buildMessage args content fs = some m)
    (hl : orc.loginFails = false) (hs : orc.sendFails = true) :
    (send_mail env args content fs orc).2 =
      Outcome.exitMsg ("mail to f" ++ args.to_email ++ " failed; " ++ orc.sendErrMsg) ∧
    quitCount (send_mail env args content fs orc).1 = 1 := by
  simp [send_mail, hc, hm, hl, hs, quitCount]

/-- Witness for C3 (amended): a concrete run whose `sendmail` raises. -/
theorem sendmail_failure_exits_and_quits_witness :
    resolveCreds envFull = Except.ok ("smtp.example.com", "user", "pass") ∧
    buildMessage argsBase "body" fsNone = some msgBase ∧
    ((send_mail envFull argsBase "body" fsNone ⟨false, true, "boom"⟩).2 =
      Outcome.exitMsg ("mail to f" ++ argsBase.to_email ++ " failed; " ++
        (⟨false, true, "boom"⟩ : SmtpOracle).sendErrMsg) ∧
     quitCount (send_mail envFull argsBase "body" fsNone ⟨false, true, "boom"⟩).1 = 1) :=
  ⟨rfl, rfl,
   sendmail_failure_exits_and_quits envFull argsBase "body" fsNone ⟨false, true, "boom"⟩
     ("smtp.example.com", "user", "pass") msgBase rfl rfl rfl rfl⟩

/-- C9: with exactly one `--attachment` path naming a readable file, the
constructed message holds exactly one binary part beyond the body part,
that part's base64 payload decodes to the exact byte content of the file,
and its Content-Disposition value embeds the given path verbatim. -/
theorem single_attachment_roundtrip (args : Args) (content : String)
    (fs : String → Option (List Nat)) (p : String) (bytes : List Nat) (m : Message)
    (hatt : args.attachment = [p]) (hfs : fs p = some bytes) (hb : ValidBytes bytes)
    (hm : buildMessage args content fs = some m) :
    m.parts = [Part.text content args.content_type "utf-8",
               Part.binary (b64Encode bytes) ("attachment; filename=" ++ p)] ∧
    b64Decode (b64Encode bytes) = bytes := by
  refine ⟨?_, b64_decode_encode bytes hb⟩
  simp only [buildMessage, hatt] at hm
  simp only [List.mapM_cons, List.mapM_nil, buildAttachmentPart, hfs, pure, bind,
    Option.bind_eq_bind, Option.some_bind] at hm
  rw [Option.some_inj] at hm
  rw [← hm]

/-- Witness for C9 at a three-byte attachment. -/
theorem single_attachment_roundtrip_witness :
    argsAtt.attachment = ["file.bin"] ∧ fsOne "file.bin" = some [0, 255, 7] ∧
    ValidBytes [0, 255, 7] ∧ buildMessage argsAtt "body" fsOne = some msgAtt ∧
    (msgAtt.parts = [Part.text "body" argsAtt.content_type "utf-8",
                     Part.binary (b64Encode [0, 255, 7]) ("attachment; filename=" ++ "file.bin")] ∧
     b64Decode (b64Encode [0, 255, 7]) = [0, 255, 7]) :=
  ⟨rfl, rfl, by decide, rfl,
   single_attachment_roundtrip argsAtt "body" fsOne "file.bin" [0, 255, 7] msgAtt
     rfl rfl (by decide) rfl⟩

end SendMail
